import Mathlib

/-
Verification of the relational-database connection management subsystem
(package `database` of turahe/pkg) against its natural-language
specification.

Modelling conventions used throughout this file:
- Go strings are modelled as `List Char`; `str` converts a Lean string
  literal to that representation.
- Go `int` and `time.Duration` (an `int64` of nanoseconds) are modelled as
  `Int`; none of the verified code paths perform arithmetic that can
  overflow, so the idealised integers agree with the machine integers on
  every reachable value.
- `gorm.io/gorm/logger.LogLevel` is an integer enum:
  Silent = 1, Error = 2, Warn = 3, Info = 4.
- Functions that in Go return `(T, error)` are modelled as pairs with an
  `Option` error component; functions performing external I/O (dialer
  creation, `sql.Open`, ping, `gorm.Open`) are parameterised by a record of
  oracle outcomes for those external operations, and process-global state
  (`sync.Once` guards, global dialer counters) is threaded explicitly.
-/

def str (s : String) : List Char := s.data

/-- Character code of the single-quote character (kept out of literals). -/
def quoteChar1 : Char := Char.ofNat 39

/-- Character code of the double-quote character. -/
def quoteChar2 : Char := Char.ofNat 34

/-! ## Data model: `Options` (options.go) and `DatabaseConfiguration` (config/types.go) -/

/-- gorm `logger.Silent` -/
def silentLv : Int := 1
/-- gorm `logger.Error` -/
def errorLv : Int := 2
/-- gorm `logger.Warn` -/
def warnLv : Int := 3
/-- gorm `logger.Info` -/
def infoLv : Int := 4

/-- `time.Millisecond` in nanoseconds. -/
def msec : Int := 1000000
/-- `time.Second` in nanoseconds. -/
def sec : Int := 1000000000
/-- `time.Minute` in nanoseconds. -/
def minute : Int := 60000000000

/-- Defaults from options.go. -/
def defaultMaxOpenConns : Int := 30
def defaultMaxIdleConns : Int := 10
def defaultConnMaxLifetime : Int := 30 * minute
def defaultConnMaxIdleTime : Int := 10 * minute
def defaultSlowThreshold : Int := 500 * msec
def defaultPingTimeout : Int := 5 * sec

/-- `type Options struct` from options.go.  Durations are nanoseconds. -/
structure Options where
  UseIAM : Bool := false
  UsePrivateIP : Bool := false
  LogLevel : Int := 0
  MaxOpenConns : Int := 0
  MaxIdleConns : Int := 0
  ConnMaxLife : Int := 0
  ConnMaxIdle : Int := 0
  SlowThreshold : Int := 0
  PingTimeout : Int := 0
  deriving Repr, DecidableEq

/-- `func (o *Options) applyDefaults()` from options.go, as a value-level
function (the Go method mutates its receiver in place).  The method body is
seven sequential in-place `if` statements; each one reads and writes only
its own field, which no earlier statement touches, so the sequence equals
this simultaneous record update. -/
def applyDefaults (o : Options) : Options :=
  { o with
    MaxOpenConns := if o.MaxOpenConns ≤ 0 then defaultMaxOpenConns else o.MaxOpenConns,
    MaxIdleConns := if o.MaxIdleConns ≤ 0 then defaultMaxIdleConns else o.MaxIdleConns,
    ConnMaxLife := if o.ConnMaxLife ≤ 0 then defaultConnMaxLifetime else o.ConnMaxLife,
    ConnMaxIdle := if o.ConnMaxIdle ≤ 0 then defaultConnMaxIdleTime else o.ConnMaxIdle,
    SlowThreshold := if o.SlowThreshold ≤ 0 then defaultSlowThreshold else o.SlowThreshold,
    PingTimeout := if o.PingTimeout ≤ 0 then defaultPingTimeout else o.PingTimeout,
    LogLevel := if o.LogLevel < silentLv ∨ infoLv < o.LogLevel then warnLv else o.LogLevel }

/-- `config.DatabaseConfiguration` (config/types.go).  Only the fields the
database package reads are modelled. -/
structure DatabaseConfiguration where
  Driver : List Char := []
  Dbname : List Char := []
  Username : List Char := []
  Password : List Char := []
  Host : List Char := []
  Port : List Char := []
  Sslmode : Bool := false
  Logmode : Bool := false
  CloudSQLInstance : List Char := []
  MaxIdleConns : Int := 0
  MaxOpenConns : Int := 0
  ConnMaxLifetimeMinutes : Int := 0
  deriving Repr, DecidableEq

/-! ## Pool configurator (pool.go `configurePool`) -/

/-- The four settings `configurePool` applies to the pooled `*sql.DB`
(`SetMaxOpenConns`, `SetMaxIdleConns`, `SetConnMaxLifetime`,
`SetConnMaxIdleTime`). -/
structure PoolSettings where
  maxOpen : Int
  maxIdle : Int
  connMaxLife : Int
  connMaxIdle : Int
  deriving Repr, DecidableEq

/-- `func configurePool(sqlDB *sql.DB, cfg *config.DatabaseConfiguration,
opts *Options)`: the settings it writes to the pool. -/
def configurePool (cfg : DatabaseConfiguration) (opts : Options) : PoolSettings :=
  let maxOpen := if cfg.MaxOpenConns > 0 then cfg.MaxOpenConns else opts.MaxOpenConns
  let maxIdle := if cfg.MaxIdleConns > 0 then cfg.MaxIdleConns else opts.MaxIdleConns
  let connMaxLife :=
    if cfg.ConnMaxLifetimeMinutes > 0 then cfg.ConnMaxLifetimeMinutes * minute
    else opts.ConnMaxLife
  { maxOpen := maxOpen, maxIdle := maxIdle, connMaxLife := connMaxLife,
    connMaxIdle := opts.ConnMaxIdle }

/-! ## DSN builder (standard.go `buildDSN`) -/

/-- `func buildDSN(cfg *config.DatabaseConfiguration) (string, error)`:
returns the DSN and an optional error, mirroring the Go two-value return
(on the error path Go returns the empty string). -/
def buildDSN (cfg : DatabaseConfiguration) : List Char × Option (List Char) :=
  if cfg.Driver = str "mysql" then
    (cfg.Username ++ str ":" ++ cfg.Password ++ str "@tcp(" ++ cfg.Host ++ str ":" ++
      cfg.Port ++ str ")/" ++ cfg.Dbname ++ str "?charset=utf8&parseTime=True&loc=Local", none)
  else if cfg.Driver = str "postgres" then
    let mode := if cfg.Sslmode then str "require" else str "disable"
    (str "host=" ++ cfg.Host ++ str " user=" ++ cfg.Username ++ str " password=" ++
      cfg.Password ++ str " dbname=" ++ cfg.Dbname ++ str " port=" ++ cfg.Port ++
      str " sslmode=" ++ mode, none)
  else if cfg.Driver = str "sqlite" then
    (str "./" ++ cfg.Dbname ++ str ".db", none)
  else if cfg.Driver = str "sqlserver" then
    let mode := if cfg.Sslmode then str "true" else str "disable"
    (str "sqlserver://" ++ cfg.Username ++ str ":" ++ cfg.Password ++ str "@" ++
      cfg.Host ++ str ":" ++ cfg.Port ++ str "?database=" ++ cfg.Dbname ++
      str "&encrypt=" ++ mode, none)
  else
    ([], some (str "unsupported driver: " ++ cfg.Driver))

/-! ## Redacting logger: `redactSQL` (logger.go)

The Go code applies five case-insensitive regular expressions of the common
shape `(?i)(kw1|kw2|...)\s*=\s*['"]?[^'"\s]+['"]?` with replacement
`$1=[REDACTED]`, then repeatedly collapses adjacent placeholders.
Because no two alternatives of any one pattern are prefixes of each other,
at most one alternative can match at a given position, and because the
character classes exclude the quote characters, the regex engine needs no
backtracking on these patterns: `ReplaceAllString` is exactly a
left-to-right scan replacing each leftmost match.  That scan is what is
implemented below (with a fuel argument, one unit per consumed character,
so that the function is structurally recursive and kernel-executable). -/

/-- ASCII lowercase, the effect of the `(?i)` flag on the keyword letters. -/
def lowerCh (c : Char) : Char :=
  if 65 ≤ c.toNat ∧ c.toNat ≤ 90 then Char.ofNat (c.toNat + 32) else c

/-- Go regexp `\s`: `[\t\n\f\r ]`. -/
def isSpaceGo (c : Char) : Bool :=
  c == ' ' || c == Char.ofNat 9 || c == Char.ofNat 10 || c == Char.ofNat 12 || c == Char.ofNat 13

/-- The character class `['"]`. -/
def isQuoteCh (c : Char) : Bool :=
  c == quoteChar1 || c == quoteChar2

/-- The character class `[^'"\s]`. -/
def isValCh (c : Char) : Bool :=
  !(isQuoteCh c || isSpaceGo c)

/-- Case-insensitive prefix test for one keyword alternative. -/
def isCIPrefix : List Char → List Char → Bool
  | [], _ => true
  | _ :: _, [] => false
  | k :: ks, c :: cs => lowerCh k == lowerCh c && isCIPrefix ks cs

/-- The alternation `(kw1|kw2|...)`: first keyword that matches at this
position, returning the number of characters it consumes. -/
def matchKeyword : List (List Char) → List Char → Option Nat
  | [], _ => none
  | kw :: kws, s => if isCIPrefix kw s then some kw.length else matchKeyword kws s

/-- Number of leading `\s` characters (the greedy `\s*`). -/
def countSpaces (s : List Char) : Nat := (List.takeWhile isSpaceGo s).length

/-- The suffix `['"]?[^'"\s]+['"]?` of each pattern: number of characters it
consumes at this position, if it matches. -/
def matchValueLen (s : List Char) : Option Nat :=
  match s with
  | [] => none
  | c :: rest =>
    if isQuoteCh c then
      let v := List.takeWhile isValCh rest
      if v.length = 0 then none
      else
        match List.drop v.length rest with
        | d :: _ => some (1 + v.length + (if isQuoteCh d then 1 else 0))
        | [] => some (1 + v.length)
    else
      let v := List.takeWhile isValCh (c :: rest)
      if v.length = 0 then none
      else
        match List.drop v.length (c :: rest) with
        | d :: _ => some (v.length + (if isQuoteCh d then 1 else 0))
        | [] => some v.length

/-- A whole pattern `(alts)\s*=\s*['"]?[^'"\s]+['"]?` matched at the head of
`s`: returns (keyword length, total match length). -/
def matchRule (kws : List (List Char)) (s : List Char) : Option (Nat × Nat) :=
  match matchKeyword kws s with
  | none => none
  | some k =>
    let s1 := List.drop k s
    let a := countSpaces s1
    match List.drop a s1 with
    | c :: s3 =>
      if c == '=' then
        let b := countSpaces s3
        match matchValueLen (List.drop b s3) with
        | none => none
        | some v => some (k, k + a + 1 + b + v)
      else none
    | [] => none

/-- The replacement text after the captured keyword: `=[REDACTED]`. -/
def eqRed : List Char := str "=[REDACTED]"

/-- The fixed placeholder `[REDACTED]`. -/
def phChars : List Char := str "[REDACTED]"

/-- `re.ReplaceAllString(s, "$1=[REDACTED]")` as a left-to-right scan.
Fuel decreases by one each step while at least one input character is
consumed, so `fuel = s.length` always suffices. -/
def replacePassFuel (kws : List (List Char)) : Nat → List Char → List Char
  | 0, s => s
  | _ + 1, [] => []
  | fuel + 1, c :: rest =>
    match matchRule kws (c :: rest) with
    | some (k, n) =>
      List.take k (c :: rest) ++ eqRed ++ replacePassFuel kws fuel (List.drop n (c :: rest))
    | none => c :: replacePassFuel kws fuel rest

/-- One `ReplaceAllString` pass of one pattern over the whole string. -/
def runPass (kws : List (List Char)) (s : List Char) : List Char :=
  replacePassFuel kws s.length s

/-- Keyword alternations of the five `sensitivePatterns`, in source order. -/
def passwordKws : List (List Char) := [str "password", str "passwd", str "pwd"]
def tokenKws : List (List Char) := [str "token", str "secret", str "api_key", str "apikey"]
def cardKws : List (List Char) := [str "credit_card", str "card_number", str "cc_number"]
def ssnKws : List (List Char) := [str "ssn", str "social_security"]
def pinKws : List (List Char) := [str "pin", str "otp"]

/-- All keywords of all five patterns. -/
def allKws : List (List Char) := passwordKws ++ tokenKws ++ cardKws ++ ssnKws ++ pinKws

/-- Two placeholders joined by one space, the pattern of the collapse loop. -/
def phPair : List Char := phChars ++ str " " ++ phChars

/-- `strings.Contains(s, pat)`. -/
def containsSub (pat : List Char) : List Char → Bool
  | [] => List.isPrefixOf pat []
  | c :: rest => List.isPrefixOf pat (c :: rest) || containsSub pat rest

/-- `strings.ReplaceAll(s, phPair, phChars)` (phPair has 21 characters). -/
def replacePHFuel : Nat → List Char → List Char
  | 0, s => s
  | _ + 1, [] => []
  | fuel + 1, c :: rest =>
    if List.isPrefixOf phPair (c :: rest) then
      phChars ++ replacePHFuel fuel (List.drop 21 (c :: rest))
    else c :: replacePHFuel fuel rest

/-- The collapse loop `for strings.Contains(s, phPair) ... ReplaceAll`.
Each iteration with an occurrence strictly shortens the string, so
`s.length` iterations of fuel always reach the loop exit condition. -/
def collapseFuel : Nat → List Char → List Char
  | 0, s => s
  | fuel + 1, s =>
    if containsSub phPair s then collapseFuel fuel (replacePHFuel s.length s) else s

/-- `func redactSQL(sql string) string` from logger.go. -/
def redactSQL (s : List Char) : List Char :=
  let s1 := runPass passwordKws s
  let s2 := runPass tokenKws s1
  let s3 := runPass cardKws s2
  let s4 := runPass ssnKws s3
  let s5 := runPass pinKws s4
  collapseFuel s5.length s5

/-- True when some sensitive keyword occurs (case-insensitively) anywhere in
the string; the negation is the precondition of the no-op property. -/
def hasSensitiveKeyword : List Char → Bool
  | [] => false
  | c :: rest => allKws.any (fun kw => isCIPrefix kw (c :: rest)) || hasSensitiveKeyword rest

/-! ## Structured logger `fintechLogger` and its `Trace` hook (logger.go) -/

/-- Errors observed by `Trace`: gorm distinguishes its `ErrRecordNotFound`
sentinel (compared by identity in the Go code) from every other error. -/
inductive DBErr where
  | recordNotFound
  | other (msg : List Char)
  deriving Repr, DecidableEq

/-- `type fintechLogger struct` fields. -/
structure FintechLogger where
  level : Int
  slowThreshold : Int
  ignoreRecordNotFoundErr : Bool
  deriving Repr, DecidableEq

/-- `func newFintechLogger(opts *Options) logger.Interface`. -/
def newFintechLogger (opts : Options) : FintechLogger :=
  { level := opts.LogLevel, slowThreshold := opts.SlowThreshold,
    ignoreRecordNotFoundErr := true }

/-- `func (l *fintechLogger) LogMode(level logger.LogLevel)`: copy with a
different level, original unmutated. -/
def logMode (l : FintechLogger) (level : Int) : FintechLogger :=
  { l with level := level }

/-- Severity of an emitted record. -/
inductive EmitLevel where
  | error
  | warn
  | info
  deriving Repr, DecidableEq

/-- One structured record emitted by `Trace` (`LogAttrs` call): severity,
duration and row count fields, redacted query, optional error text, the
`slow` flag and the optional `threshold_ms` field. -/
structure EmitRecord where
  lvl : EmitLevel
  durationMs : Int
  rows : Int
  sql : List Char
  errText : Option (List Char)
  slow : Bool
  thresholdMs : Option Int
  deriving Repr, DecidableEq

/-- Result of one `Trace` invocation: whether the deferred `fc()` closure
was invoked, and the record emitted, if any. -/
structure TraceResult where
  fcInvoked : Bool
  emitted : Option EmitRecord
  deriving Repr, DecidableEq

/-- `func (l *fintechLogger) Trace(ctx, begin, fc, err)` from logger.go.
`elapsed` is `time.Since(begin)` in nanoseconds; `q` and `rows` are what
`fc()` would return; integer division by `msec` is Go `Milliseconds()`
(all reachable durations are non-negative, where the two divisions agree). -/
def fintechTrace (l : FintechLogger) (elapsed : Int) (q : List Char) (rows : Int)
    (err : Option DBErr) : TraceResult :=
  if l.level ≤ silentLv then { fcInvoked := false, emitted := none }
  else
    let redacted := redactSQL q
    match err with
    | some e =>
      if e = DBErr.recordNotFound ∧ l.ignoreRecordNotFoundErr then
        { fcInvoked := true, emitted := none }
      else
        { fcInvoked := true,
          emitted :=
            some
              { lvl := EmitLevel.error, durationMs := elapsed / msec,
                rows := rows, sql := redacted,
                errText :=
                  some
                    (match e with
                     | DBErr.recordNotFound => str "record not found"
                     | DBErr.other m => m),
                slow := false, thresholdMs := none } }
    | none =>
      if l.slowThreshold < elapsed then
        { fcInvoked := true,
          emitted :=
            some
              { lvl := EmitLevel.warn, durationMs := elapsed / msec,
                rows := rows, sql := redacted, errText := none,
                slow := true, thresholdMs := some (l.slowThreshold / msec) } }
      else if infoLv ≤ l.level then
        { fcInvoked := true,
          emitted :=
            some
              { lvl := EmitLevel.info, durationMs := elapsed / msec,
                rows := rows, sql := redacted, errText := none,
                slow := false, thresholdMs := none } }
      else { fcInvoked := true, emitted := none }

/-! ## Managed-instance connectors (cloudsql.go)

The two connectors are modelled as transition functions over the package
globals (`postgresDriverOnce`, `mysqlDriverOnce`, `mysqlDriverCleanup`,
`mysqlCleanupOnce`) together with counters for how many times each
process-wide resource was created.  External operations are oracles. -/

/-- Outcomes of the external operations a connection attempt performs, in
source order. -/
structure ExtOutcomes where
  newDialerOk : Bool
  parseOk : Bool
  openOk : Bool
  dbOk : Bool
  pingOk : Bool
  gormOk : Bool
  deriving Repr, DecidableEq

/-- Process-wide state of cloudsql.go: the `sync.Once` guards plus creation
counters for the process-level resources they protect. -/
structure CSState where
  pgRegistered : Bool
  pgRegisterCount : Nat
  pgDialerCreations : Nat
  myRegistered : Bool
  myDialerCreations : Nat
  myCleanupDone : Bool
  deriving Repr, DecidableEq

/-- Fresh process state. -/
def initCSState : CSState :=
  { pgRegistered := false, pgRegisterCount := 0, pgDialerCreations := 0,
    myRegistered := false, myDialerCreations := 0, myCleanupDone := false }

/-- Teardown actions performed during a single connector call. -/
structure CallEvents where
  sqlDbClosed : Bool
  dialerClosed : Bool
  deriving Repr, DecidableEq

/-- No teardown. -/
def noEvents : CallEvents := { sqlDbClosed := false, dialerClosed := false }

/-- `func connectCloudSQLPostgres(ctx, cfg, opts)` from cloudsql.go.
A fresh `cloudsqlconn.NewDialer` is invoked on every call; only the
`sql.Register` of the network driver is guarded by `postgresDriverOnce`.
Returns the Go error (if any), the new process state, and the teardown
actions of this call (on success the returned cleanup is `dialer.Close`,
closing this call's own dialer). -/
def connectCloudSQLPostgres (cfg : DatabaseConfiguration) (ext : ExtOutcomes)
    (st : CSState) : Option (List Char) × CSState × CallEvents :=
  if cfg.CloudSQLInstance = [] then
    (some (str "cloud_sql_instance required for cloudsql-postgres"), st, noEvents)
  else if !ext.newDialerOk then
    (some (str "create dialer"), st, noEvents)
  else
    let st := { st with pgDialerCreations := st.pgDialerCreations + 1 }
    if !ext.parseOk then
      (some (str "parse pgx config"), st, { sqlDbClosed := false, dialerClosed := true })
    else
      let st := if st.pgRegistered then st
        else { st with pgRegistered := true, pgRegisterCount := st.pgRegisterCount + 1 }
      if !ext.openOk then
        (some (str "open"), st, { sqlDbClosed := false, dialerClosed := true })
      else if !ext.pingOk then
        (some (str "ping"), st, { sqlDbClosed := true, dialerClosed := true })
      else if !ext.gormOk then
        (some (str "gorm open"), st, { sqlDbClosed := true, dialerClosed := true })
      else (none, st, noEvents)

/-- `func connectCloudSQLMySQL(ctx, cfg, opts)` from cloudsql.go.
`cloudsqlmysql.RegisterDriver` (which creates the tunnel dialer for the
whole driver family) runs inside `mysqlDriverOnce`; the stored cleanup is
invoked only through `mysqlCleanupOnce`, never on a connection failure. -/
def connectCloudSQLMySQL (cfg : DatabaseConfiguration) (ext : ExtOutcomes)
    (st : CSState) : Option (List Char) × CSState × CallEvents :=
  if cfg.CloudSQLInstance = [] then
    (some (str "cloud_sql_instance required for cloudsql-mysql"), st, noEvents)
  else
    let st := if st.myRegistered then st
      else { st with myRegistered := true, myDialerCreations := st.myDialerCreations + 1 }
    if !ext.openOk then (some (str "open"), st, noEvents)
    else if !ext.dbOk then (some (str "get sql.DB"), st, noEvents)
    else if !ext.pingOk then
      (some (str "ping"), st, { sqlDbClosed := true, dialerClosed := false })
    else (none, st, noEvents)

/-! ## Standard connector and dispatcher (standard.go `connectStandard`,
factory.go `NewContext`) -/

/-- `func connectStandard(ctx, cfg, opts)` from standard.go: build the DSN
(propagating its error), open via the driver switch, fetch the pooled
connection, configure the pool, ping with a bounded context.  On ping
failure the pooled connection is closed before the error returns. -/
def connectStandard (cfg : DatabaseConfiguration) (ext : ExtOutcomes) :
    Option (List Char) × CallEvents :=
  let (_, dsnErr) := buildDSN cfg
  match dsnErr with
  | some e => (some e, noEvents)
  | none =>
    if cfg.Driver = str "mysql" ∨ cfg.Driver = str "postgres" ∨
        cfg.Driver = str "sqlite" ∨ cfg.Driver = str "sqlserver" then
      if !ext.openOk then (some (str "open"), noEvents)
      else if !ext.dbOk then (some (str "get sql.DB"), noEvents)
      else if !ext.pingOk then (some (str "ping"), { sqlDbClosed := true, dialerClosed := false })
      else (none, noEvents)
    else (some (str "unsupported driver: " ++ cfg.Driver), noEvents)

/-- The six driver names recognised by the dispatcher. -/
def recognizedDrivers : List (List Char) :=
  [str "mysql", str "postgres", str "sqlite", str "sqlserver",
   str "cloudsql-postgres", str "cloudsql-mysql"]

/-- Result of `NewContext`: either a handle (carrying the private options
copy actually stored in it) or no handle, plus the returned error. -/
structure NewContextResult where
  handleOpts : Option Options
  err : Option (List Char)
  st : CSState
  deriving Repr, DecidableEq

/-- `func NewContext(ctx, cfg, opts, override...)` from factory.go: copy the
caller's options value, apply the functional overrides to the copy, apply
defaults, then dispatch on the driver name; a connector error is wrapped
and a nil handle returned. -/
def NewContext (cfg : DatabaseConfiguration) (opts : Options)
    (overrides : List (Options → Options)) (ext : ExtOutcomes) (st : CSState) :
    NewContextResult :=
  let o := applyDefaults (overrides.foldl (fun acc f => f acc) opts)
  if cfg.Driver = str "cloudsql-postgres" then
    match connectCloudSQLPostgres cfg ext st with
    | (some e, st1, _) => { handleOpts := none, err := some (str "database: " ++ e), st := st1 }
    | (none, st1, _) => { handleOpts := some o, err := none, st := st1 }
  else if cfg.Driver = str "cloudsql-mysql" then
    match connectCloudSQLMySQL cfg ext st with
    | (some e, st1, _) => { handleOpts := none, err := some (str "database: " ++ e), st := st1 }
    | (none, st1, _) => { handleOpts := some o, err := none, st := st1 }
  else
    match connectStandard cfg ext with
    | (some e, _) => { handleOpts := none, err := some (str "database: " ++ e), st := st }
    | (none, _) => { handleOpts := some o, err := none, st := st }

/-! ## Lifecycle: `Database.Close` (health.go) -/

/-- The cleanup list of a handle: each closure is identified by a tag and by
the error it returns when invoked (`none` for success). -/
structure HandleState where
  cleanups : List (Nat × Option (List Char))
  deriving Repr, DecidableEq

/-- Run the cleanup loop of `Close`: returns the tags invoked, in order, and
the collected (not short-circuited) errors, in order. -/
def runCleanups : List (Nat × Option (List Char)) → List Nat × List (List Char)
  | [] => ([], [])
  | (tag, r) :: rest =>
    let (tags, errs) := runCleanups rest
    (tag :: tags, match r with
      | some m => m :: errs
      | none => errs)

/-- `func (d *Database) Close() error` from health.go: invoke every cleanup,
collect all errors, clear the list; error is nil iff no cleanup failed,
otherwise one combined error carrying every failure. -/
def closeHandle (h : HandleState) : (List Nat × Option (List (List Char))) × HandleState :=
  let (tags, errs) := runCleanups h.cleanups
  ((tags, if errs = [] then none else some errs), { cleanups := [] })

/-! ## Frame model for `NewContext` options handling (factory.go lines 26-31)

Go passes `opts Options` by value and `NewContext` immediately copies it
into a freshly allocated cell (`o := &Options{}; *o = opts`); the override
closures and `applyDefaults` mutate only that cell through the pointer
`o`.  To state the frame property we model a heap of `Options` cells. -/

/-- A heap of `Options` cells; `fresh` is the next unallocated address. -/
structure OptStore where
  cells : Nat → Options
  fresh : Nat

/-- Write one cell. -/
def writeCell (σ : OptStore) (i : Nat) (v : Options) : OptStore :=
  { σ with cells := fun j => if j = i then v else σ.cells j }

/-- `NewContext`'s handling of the options value, against the heap: read the
caller's variable (pass by value), allocate `o`, copy into it, run each
override on `o`, run `applyDefaults` on `o`; the handle keeps `o`'s
address.  Returns the final heap and the address stored in the handle. -/
def newContextOptionsHeap (σ : OptStore) (callerCell : Nat)
    (overrides : List (Options → Options)) : OptStore × Nat :=
  let v := σ.cells callerCell
  let b := σ.fresh
  let σ1 := { writeCell σ b v with fresh := σ.fresh + 1 }
  let σ2 := overrides.foldl (fun s f => writeCell s b (f (s.cells b))) σ1
  let σ3 := writeCell σ2 b (applyDefaults (σ2.cells b))
  (σ3, b)

/-! ## Concrete inputs used by counterexamples and witnesses -/

/-- The repository's sqlite integration-test configuration, with the
host/port fields of the postgres integration test filled in (a sqlite
target with host data present is a perfectly well-formed configuration). -/
def cfgSqliteHost : DatabaseConfiguration :=
  { Driver := str "sqlite", Host := str "localhost", Port := str "5432",
    Username := str "test", Password := str "test", Dbname := str "testdb" }

/-- A mysql configuration (the repository's mysql integration test). -/
def cfgMysqlW : DatabaseConfiguration :=
  { Driver := str "mysql", Host := str "127.0.0.1", Port := str "3306",
    Username := str "root", Password := str "root", Dbname := str "testdb" }

/-- A cloudsql-postgres configuration with a non-empty instance name. -/
def cfgPgCS : DatabaseConfiguration :=
  { Driver := str "cloudsql-postgres", Username := str "u", Password := str "p",
    Dbname := str "db", Port := str "5432",
    CloudSQLInstance := str "project:region:instance" }

/-- A cloudsql-mysql configuration with a non-empty instance name. -/
def cfgMyCS : DatabaseConfiguration :=
  { Driver := str "cloudsql-mysql", Username := str "u", Password := str "p",
    Dbname := str "db", CloudSQLInstance := str "project:region:instance" }

/-- All external operations succeed. -/
def extOk : ExtOutcomes :=
  { newDialerOk := true, parseOk := true, openOk := true, dbOk := true,
    pingOk := true, gormOk := true }

/-- Everything succeeds up to the bounded ping, which fails. -/
def extPingFail : ExtOutcomes :=
  { newDialerOk := true, parseOk := true, openOk := true, dbOk := true,
    pingOk := false, gormOk := true }

/-- The sensitive assignment from the repository's redaction test:
the text of `password='secret123'`. -/
def pwAssign : List Char :=
  str "password=" ++ [quoteChar1] ++ str "secret123" ++ [quoteChar1]

/-- The repository's own redaction test query
`SELECT * FROM users WHERE password='secret123'`. -/
def canonicalQuery : List Char := str "SELECT * FROM users WHERE " ++ pwAssign

/-- A query containing `password='secret123'` and also the same literal as
an ordinary selected value outside any sensitive assignment:
`SELECT 'secret123' FROM t WHERE password='secret123'`. -/
def ctrQuery : List Char :=
  str "SELECT " ++ [quoteChar1] ++ str "secret123" ++ [quoteChar1] ++
    str " FROM t WHERE " ++ pwAssign

/-! ## Theorems -/

set_option maxHeartbeats 1000000 in
/-- C4: for every Options value, including ones with zero or negative
numeric/duration fields, `applyDefaults` leaves every numeric and duration
field strictly positive and the log level inside the valid enum range
(Silent..Info), and it is idempotent: applying it twice gives the same
result as applying it once. -/
theorem applyDefaults_spec (o : Options) :
    0 < (applyDefaults o).MaxOpenConns ∧ 0 < (applyDefaults o).MaxIdleConns ∧
    0 < (applyDefaults o).ConnMaxLife ∧ 0 < (applyDefaults o).ConnMaxIdle ∧
    0 < (applyDefaults o).SlowThreshold ∧ 0 < (applyDefaults o).PingTimeout ∧
    silentLv ≤ (applyDefaults o).LogLevel ∧ (applyDefaults o).LogLevel ≤ infoLv ∧
    applyDefaults (applyDefaults o) = applyDefaults o := by
  obtain ⟨u1, u2, lv, mo, mi, cl, ci, sl, pt⟩ := o
  simp only [applyDefaults, silentLv, infoLv, warnLv, defaultMaxOpenConns, defaultMaxIdleConns,
    defaultConnMaxLifetime, defaultConnMaxIdleTime, defaultSlowThreshold, defaultPingTimeout,
    msec, sec, minute]
  norm_num
  split_ifs <;> simp_all

/-- C5: for every config and options, `configurePool` resolves each pool
field independently: a positive per-target override in the
DatabaseConfiguration (MaxOpenConns, MaxIdleConns, ConnMaxLifetimeMinutes)
wins, otherwise the options value is applied (idle time always comes from
the options); in particular with cfg.MaxOpenConns = 5 and
opts.MaxOpenConns = 30 the configured open-connection ceiling is 5. -/
theorem configurePool_spec (cfg : DatabaseConfiguration) (opts : Options) :
    ((0 < cfg.MaxOpenConns → (configurePool cfg opts).maxOpen = cfg.MaxOpenConns) ∧
     (cfg.MaxOpenConns ≤ 0 → (configurePool cfg opts).maxOpen = opts.MaxOpenConns)) ∧
    ((0 < cfg.MaxIdleConns → (configurePool cfg opts).maxIdle = cfg.MaxIdleConns) ∧
     (cfg.MaxIdleConns ≤ 0 → (configurePool cfg opts).maxIdle = opts.MaxIdleConns)) ∧
    ((0 < cfg.ConnMaxLifetimeMinutes →
       (configurePool cfg opts).connMaxLife = cfg.ConnMaxLifetimeMinutes * minute) ∧
     (cfg.ConnMaxLifetimeMinutes ≤ 0 →
       (configurePool cfg opts).connMaxLife = opts.ConnMaxLife)) ∧
    (configurePool cfg opts).connMaxIdle = opts.ConnMaxIdle ∧
    (configurePool { cfg with MaxOpenConns := 5 } { opts with MaxOpenConns := 30 }).maxOpen = 5 := by
  unfold configurePool
  refine ⟨⟨fun ho => ?_, fun hoz => ?_⟩, ⟨fun hi => ?_, fun hiz => ?_⟩,
    ⟨fun hm => ?_, fun hmz => ?_⟩, ?_, ?_⟩ <;> simp_all

/-- Witness for C5 at a concrete input: the per-target override 5 beats the
options value 30. -/
theorem configurePool_spec_witness :
    0 < (5 : Int) ∧
    (configurePool { MaxOpenConns := 5 } { MaxOpenConns := 30 }).maxOpen = 5 :=
  ⟨by decide,
    (configurePool_spec { MaxOpenConns := 5 } { MaxOpenConns := 30 }).1.1 (by decide)⟩

/-- C3 counterexample: for the sqlite driver with a configured host and
port, `buildDSN` succeeds but the DSN (`./testdb.db`) contains neither the
host nor the port substring, refuting the claim that for every valid
configuration all four standard drivers produce a DSN containing host,
port and database name. -/
theorem buildDSN_counterexample :
    (buildDSN cfgSqliteHost).2 = none ∧
    cfgSqliteHost.Host = str "localhost" ∧
    ¬ cfgSqliteHost.Host <:+: (buildDSN cfgSqliteHost).1 ∧
    ¬ cfgSqliteHost.Port <:+: (buildDSN cfgSqliteHost).1 := by
  refine ⟨by decide, by decide, by decide, by decide⟩

/-- C3 (amended): mysql, postgres and sqlserver DSNs are produced without
error and contain the configured host, port and database-name substrings;
the sqlite DSN is produced without error and is `./` + dbname + `.db`
(containing the database name but not host or port); every other driver
name yields the empty string and an unsupported-driver error. -/
theorem buildDSN_spec (cfg : DatabaseConfiguration) :
    (cfg.Driver = str "mysql" →
      (buildDSN cfg).2 = none ∧ cfg.Host <:+: (buildDSN cfg).1 ∧
      cfg.Port <:+: (buildDSN cfg).1 ∧ cfg.Dbname <:+: (buildDSN cfg).1) ∧
    (cfg.Driver = str "postgres" →
      (buildDSN cfg).2 = none ∧ cfg.Host <:+: (buildDSN cfg).1 ∧
      cfg.Port <:+: (buildDSN cfg).1 ∧ cfg.Dbname <:+: (buildDSN cfg).1) ∧
    (cfg.Driver = str "sqlserver" →
      (buildDSN cfg).2 = none ∧ cfg.Host <:+: (buildDSN cfg).1 ∧
      cfg.Port <:+: (buildDSN cfg).1 ∧ cfg.Dbname <:+: (buildDSN cfg).1) ∧
    (cfg.Driver = str "sqlite" →
      (buildDSN cfg).2 = none ∧ (buildDSN cfg).1 = str "./" ++ cfg.Dbname ++ str ".db") ∧
    (cfg.Driver ≠ str "mysql" → cfg.Driver ≠ str "postgres" → cfg.Driver ≠ str "sqlite" →
      cfg.Driver ≠ str "sqlserver" →
      (buildDSN cfg).1 = [] ∧ (buildDSN cfg).2 = some (str "unsupported driver: " ++ cfg.Driver)) := by
  refine ⟨fun h => ?_, fun h => ?_, fun h => ?_, fun h => ?_, fun h1 h2 h3 h4 => ?_⟩
  · rw [buildDSN, if_pos h]
    refine ⟨rfl, ?_, ?_, ?_⟩
    · exact ⟨cfg.Username ++ str ":" ++ cfg.Password ++ str "@tcp(",
        str ":" ++ cfg.Port ++ str ")/" ++ cfg.Dbname ++ str "?charset=utf8&parseTime=True&loc=Local",
        by simp [List.append_assoc]⟩
    · exact ⟨cfg.Username ++ str ":" ++ cfg.Password ++ str "@tcp(" ++ cfg.Host ++ str ":",
        str ")/" ++ cfg.Dbname ++ str "?charset=utf8&parseTime=True&loc=Local",
        by simp [List.append_assoc]⟩
    · exact ⟨cfg.Username ++ str ":" ++ cfg.Password ++ str "@tcp(" ++ cfg.Host ++ str ":" ++
          cfg.Port ++ str ")/",
        str "?charset=utf8&parseTime=True&loc=Local",
        by simp [List.append_assoc]⟩
  · have hne : cfg.Driver ≠ str "mysql" := by rw [h]; decide
    rw [buildDSN, if_neg hne, if_pos h]
    refine ⟨rfl, ?_, ?_, ?_⟩
    · exact ⟨str "host=",
        str " user=" ++ cfg.Username ++ str " password=" ++ cfg.Password ++ str " dbname=" ++
          cfg.Dbname ++ str " port=" ++ cfg.Port ++ str " sslmode=" ++
          (if cfg.Sslmode then str "require" else str "disable"),
        by simp [List.append_assoc]⟩
    · exact ⟨str "host=" ++ cfg.Host ++ str " user=" ++ cfg.Username ++ str " password=" ++
          cfg.Password ++ str " dbname=" ++ cfg.Dbname ++ str " port=",
        str " sslmode=" ++ (if cfg.Sslmode then str "require" else str "disable"),
        by simp [List.append_assoc]⟩
    · exact ⟨str "host=" ++ cfg.Host ++ str " user=" ++ cfg.Username ++ str " password=" ++
          cfg.Password ++ str " dbname=",
        str " port=" ++ cfg.Port ++ str " sslmode=" ++
          (if cfg.Sslmode then str "require" else str "disable"),
        by simp [List.append_assoc]⟩
  · have hne1 : cfg.Driver ≠ str "mysql" := by rw [h]; decide
    have hne2 : cfg.Driver ≠ str "postgres" := by rw [h]; decide
    have hne3 : cfg.Driver ≠ str "sqlite" := by rw [h]; decide
    rw [buildDSN, if_neg hne1, if_neg hne2, if_neg hne3, if_pos h]
    refine ⟨rfl, ?_, ?_, ?_⟩
    · exact ⟨str "sqlserver://" ++ cfg.Username ++ str ":" ++ cfg.Password ++ str "@",
        str ":" ++ cfg.Port ++ str "?database=" ++ cfg.Dbname ++ str "&encrypt=" ++
          (if cfg.Sslmode then str "true" else str "disable"),
        by simp [List.append_assoc]⟩
    · exact ⟨str "sqlserver://" ++ cfg.Username ++ str ":" ++ cfg.Password ++ str "@" ++
          cfg.Host ++ str ":",
        str "?database=" ++ cfg.Dbname ++ str "&encrypt=" ++
          (if cfg.Sslmode then str "true" else str "disable"),
        by simp [List.append_assoc]⟩
    · exact ⟨str "sqlserver://" ++ cfg.Username ++ str ":" ++ cfg.Password ++ str "@" ++
          cfg.Host ++ str ":" ++ cfg.Port ++ str "?database=",
        str "&encrypt=" ++ (if cfg.Sslmode then str "true" else str "disable"),
        by simp [List.append_assoc]⟩
  · have hne1 : cfg.Driver ≠ str "mysql" := by rw [h]; decide
    have hne2 : cfg.Driver ≠ str "postgres" := by rw [h]; decide
    rw [buildDSN, if_neg hne1, if_neg hne2, if_pos h]
    exact ⟨rfl, rfl⟩
  · rw [buildDSN, if_neg h1, if_neg h2, if_neg h3, if_neg h4]
    exact ⟨rfl, rfl⟩

/-- Witness for C3 (amended) at the repository's mysql integration-test
configuration. -/
theorem buildDSN_spec_witness :
    (buildDSN cfgMysqlW).2 = none ∧ cfgMysqlW.Host <:+: (buildDSN cfgMysqlW).1 ∧
    cfgMysqlW.Port <:+: (buildDSN cfgMysqlW).1 ∧ cfgMysqlW.Dbname <:+: (buildDSN cfgMysqlW).1 :=
  (buildDSN_spec cfgMysqlW).1 (by decide)

lemma runCleanups_eq (l : List (Nat × Option (List Char))) :
    runCleanups l = (l.map Prod.fst, l.filterMap Prod.snd) := by
  induction l with
  | nil => rfl
  | cons p rest ih =>
    obtain ⟨tag, r⟩ := p
    cases r <;> simp [runCleanups, ih]

/-- C6: `Close()` invokes the handle's cleanup closures in registration
order, collects every error without short-circuiting (the combined error
carries all underlying failures, in order; it is nil exactly when no
cleanup failed), then clears the cleanup list; a second `Close()` on the
same handle finds an empty list and returns nil (and, being a total
function of the model, cannot panic). -/
theorem closeHandle_spec (h : HandleState) :
    (closeHandle h).1.1 = h.cleanups.map Prod.fst ∧
    (closeHandle h).1.2 = (if h.cleanups.filterMap Prod.snd = [] then none
      else some (h.cleanups.filterMap Prod.snd)) ∧
    ((closeHandle h).2).cleanups = [] ∧
    closeHandle (closeHandle h).2 = (([], none), { cleanups := [] }) := by
  refine ⟨?_, ?_, ?_, ?_⟩ <;>
    simp [closeHandle, runCleanups_eq] <;> rw [runCleanups_eq]

lemma foldWrites_cells (ovr : List (Options → Options)) :
    ∀ (σ : OptStore) (b : Nat),
      ((ovr.foldl (fun s f => writeCell s b (f (s.cells b))) σ).cells b
        = ovr.foldl (fun v f => f v) (σ.cells b)) ∧
      (∀ j, j ≠ b → (ovr.foldl (fun s f => writeCell s b (f (s.cells b))) σ).cells j = σ.cells j) := by
  induction ovr with
  | nil => exact fun σ b => ⟨rfl, fun j _ => rfl⟩
  | cons f fs ih =>
    intro σ b
    constructor
    · have hh := (ih (writeCell σ b (f (σ.cells b))) b).1
      simp only [List.foldl] at hh ⊢
      rw [hh]
      simp [writeCell]
    · intro j hj
      have hh := (ih (writeCell σ b (f (σ.cells b))) b).2 j hj
      simp only [List.foldl] at hh ⊢
      rw [hh]
      simp [writeCell, hj]

/-- C10: `NewContext` never mutates the caller's Options cell: the
functional overrides and `applyDefaults` are applied only to the freshly
allocated private copy stored in the returned handle, so the
caller-supplied Options value is identical before and after the call, and
the handle's copy is exactly defaults-of-overrides-of the caller value. -/
theorem newContext_frame (σ : OptStore) (i : Nat) (ovr : List (Options → Options))
    (h : i < σ.fresh) :
    ((newContextOptionsHeap σ i ovr).1).cells i = σ.cells i ∧
    ((newContextOptionsHeap σ i ovr).1).cells (newContextOptionsHeap σ i ovr).2
      = applyDefaults (ovr.foldl (fun v f => f v) (σ.cells i)) := by
  have hib : i ≠ σ.fresh := Nat.ne_of_lt h
  have hfold := foldWrites_cells ovr { writeCell σ σ.fresh (σ.cells i) with fresh := σ.fresh + 1 } σ.fresh
  constructor
  · have hother := hfold.2 i hib
    simp only [newContextOptionsHeap]
    simp only [writeCell] at hother ⊢
    simp [hib, hother]
  · have hself := hfold.1
    simp only [newContextOptionsHeap]
    simp only [writeCell] at hself ⊢
    simp [hself]

/-- Witness for C10: a one-cell heap, one override; the caller's cell is
untouched and the handle's copy is the defaulted override result. -/
theorem newContext_frame_witness :
    (0 : Nat) < 1 ∧
    ((newContextOptionsHeap { cells := fun _ => {}, fresh := 1 } 0
        [fun o => { o with MaxOpenConns := 100 }]).1).cells 0
      = ({} : Options) ∧
    ((newContextOptionsHeap { cells := fun _ => {}, fresh := 1 } 0
        [fun o => { o with MaxOpenConns := 100 }]).1).cells
        (newContextOptionsHeap { cells := fun _ => {}, fresh := 1 } 0
          [fun o => { o with MaxOpenConns := 100 }]).2
      = applyDefaults { MaxOpenConns := 100 } := by
  have hh := newContext_frame { cells := fun _ => ({} : Options), fresh := 1 } 0
    [fun o => { o with MaxOpenConns := 100 }] (by decide)
  exact ⟨by decide, hh.1, hh.2⟩

/-- C9: for every driver name outside the six recognized values, the
connector entry point (`NewContext`, dispatching to `connectStandard`)
returns a nil handle and a non-nil (wrapped unsupported-driver) error at
dispatch time, leaving the process state untouched. -/
theorem newContext_unsupported (cfg : DatabaseConfiguration) (opts : Options)
    (ovr : List (Options → Options)) (ext : ExtOutcomes) (st : CSState)
    (h : cfg.Driver ∉ recognizedDrivers) :
    (NewContext cfg opts ovr ext st).handleOpts = none ∧
    (NewContext cfg opts ovr ext st).err
      = some (str "database: " ++ (str "unsupported driver: " ++ cfg.Driver)) ∧
    (NewContext cfg opts ovr ext st).st = st := by
  simp only [recognizedDrivers, List.mem_cons, List.mem_singleton, not_or] at h
  obtain ⟨h1, h2, h3, h4, h5, h6⟩ := h
  simp [NewContext, connectStandard, buildDSN, h1, h2, h3, h4, h5, h6]

/-- Witness for C9: the repository's own invalid-driver test input. -/
theorem newContext_unsupported_witness :
    (NewContext { Driver := str "invalid-driver" } {} [] extOk initCSState).handleOpts = none ∧
    (NewContext { Driver := str "invalid-driver" } {} [] extOk initCSState).err
      = some (str "database: " ++ (str "unsupported driver: " ++ str "invalid-driver")) ∧
    (NewContext { Driver := str "invalid-driver" } {} [] extOk initCSState).st = initCSState :=
  newContext_unsupported { Driver := str "invalid-driver" } {} [] extOk initCSState (by decide)

/-- C7: the logger's `Trace` follows the claimed decision sequence at every
enum level: at silent level it returns immediately without invoking the
deferred query closure and without emitting; at the error/warn/info levels
it invokes the closure and redacts, then emits nothing when the error is
the no-rows sentinel and the logger ignores it, else an error-level record
when the error is non-nil, else a warn-level record flagged slow with the
threshold when elapsed exceeds the slow-query threshold, else an info-level
record exactly when the level is at least info. -/
theorem fintechTrace_spec (l : FintechLogger) (elapsed rows : Int) (q : List Char)
    (err : Option DBErr) :
    (l.level = silentLv →
      fintechTrace l elapsed q rows err = { fcInvoked := false, emitted := none }) ∧
    (l.level = errorLv ∨ l.level = warnLv ∨ l.level = infoLv →
      (fintechTrace l elapsed q rows err).fcInvoked = true ∧
      (err = some DBErr.recordNotFound → l.ignoreRecordNotFoundErr = true →
        (fintechTrace l elapsed q rows err).emitted = none) ∧
      (∀ e, err = some e → ¬(e = DBErr.recordNotFound ∧ l.ignoreRecordNotFoundErr = true) →
        ∃ r, (fintechTrace l elapsed q rows err).emitted = some r ∧
          r.lvl = EmitLevel.error ∧ r.sql = redactSQL q ∧ r.errText.isSome = true ∧
          r.durationMs = elapsed / msec ∧ r.rows = rows) ∧
      (err = none → l.slowThreshold < elapsed →
        ∃ r, (fintechTrace l elapsed q rows err).emitted = some r ∧
          r.lvl = EmitLevel.warn ∧ r.slow = true ∧
          r.thresholdMs = some (l.slowThreshold / msec) ∧ r.sql = redactSQL q ∧
          r.durationMs = elapsed / msec ∧ r.rows = rows) ∧
      (err = none → elapsed ≤ l.slowThreshold → infoLv ≤ l.level →
        ∃ r, (fintechTrace l elapsed q rows err).emitted = some r ∧
          r.lvl = EmitLevel.info ∧ r.sql = redactSQL q ∧
          r.durationMs = elapsed / msec ∧ r.rows = rows) ∧
      (err = none → elapsed ≤ l.slowThreshold → l.level < infoLv →
        (fintechTrace l elapsed q rows err).emitted = none)) := by
  constructor
  · intro h
    simp [fintechTrace, h, silentLv]
  · intro hl
    have hgt : ¬ l.level ≤ silentLv := by
      simp only [silentLv, errorLv, warnLv, infoLv] at hl ⊢
      rcases hl with h | h | h <;> omega
    refine ⟨?_, ?_, ?_, ?_, ?_, ?_⟩
    · cases err with
      | none =>
        simp only [fintechTrace, if_neg hgt]
        split_ifs <;> rfl
      | some e =>
        simp only [fintechTrace, if_neg hgt]
        split_ifs <;> rfl
    · intro he hi
      subst he
      simp [fintechTrace, if_neg hgt, hi]
    · intro e he hne
      subst he
      simp only [fintechTrace, if_neg hgt]
      rw [if_neg (by simpa using hne)]
      exact ⟨_, rfl, rfl, rfl, rfl, rfl, rfl⟩
    · intro he hslow
      subst he
      simp only [fintechTrace, if_neg hgt]
      rw [if_pos hslow]
      exact ⟨_, rfl, rfl, rfl, rfl, rfl, rfl, rfl⟩
    · intro he hslow hinfo
      subst he
      simp only [fintechTrace, if_neg hgt]
      rw [if_neg (by omega), if_pos hinfo]
      exact ⟨_, rfl, rfl, rfl, rfl, rfl⟩
    · intro he hslow hinfo
      subst he
      simp only [fintechTrace, if_neg hgt]
      rw [if_neg (by omega), if_neg (by omega)]

/-- Witness for C7: a warn-level logger with a 500ns threshold sees a 700ns
successful query and emits a slow-flagged warn record. -/
theorem fintechTrace_spec_witness :
    (fintechTrace { level := warnLv, slowThreshold := 500, ignoreRecordNotFoundErr := true }
        700 (str "SELECT 1") 1 none).fcInvoked = true ∧
    ∃ r, (fintechTrace { level := warnLv, slowThreshold := 500, ignoreRecordNotFoundErr := true }
        700 (str "SELECT 1") 1 none).emitted = some r ∧ r.lvl = EmitLevel.warn ∧ r.slow = true ∧
        r.thresholdMs = some (500 / msec) ∧ r.sql = redactSQL (str "SELECT 1") ∧
        r.durationMs = 700 / msec ∧ r.rows = 1 := by
  have hh := (fintechTrace_spec
    { level := warnLv, slowThreshold := 500, ignoreRecordNotFoundErr := true }
    700 1 (str "SELECT 1") none).2 (Or.inr (Or.inl rfl))
  exact ⟨hh.1, hh.2.2.2.1 rfl (by decide)⟩

/-- C1 counterexample: two successful cloudsql-postgres connections in the
same process perform TWO tunnel-dialer creations, not one —
`connectCloudSQLPostgres` calls `cloudsqlconn.NewDialer` on every
invocation; only the `sql.Register` of the driver name is once-guarded. -/
theorem dialerSingleton_counterexample :
    (connectCloudSQLPostgres cfgPgCS extOk initCSState).1 = none ∧
    (connectCloudSQLPostgres cfgPgCS extOk
        (connectCloudSQLPostgres cfgPgCS extOk initCSState).2.1).1 = none ∧
    ((connectCloudSQLPostgres cfgPgCS extOk
        (connectCloudSQLPostgres cfgPgCS extOk initCSState).2.1).2.1).pgDialerCreations = 2 := by
  decide

/-- C1 (amended): for the cloudsql-mysql family the process-wide driver and
its tunnel dialer are created at most once per process (inside
`mysqlDriverOnce`): any call finds the driver registered afterwards, a
creation happens only on the first call, and two successful connections
from a fresh process perform exactly one creation.  For the
cloudsql-postgres family only the network-driver registration is
once-guarded; a fresh tunnel dialer is created by every connection (two
successful connections register the driver once but create two dialers,
each owned and closed by its own connection). -/
theorem dialerSingleton_amended (cfg : DatabaseConfiguration) (st : CSState)
    (h : cfg.CloudSQLInstance ≠ []) :
    ((connectCloudSQLMySQL cfg extOk st).2.1).myRegistered = true ∧
    ((connectCloudSQLMySQL cfg extOk st).2.1).myDialerCreations
      = (if st.myRegistered then st.myDialerCreations else st.myDialerCreations + 1) ∧
    ((connectCloudSQLMySQL cfg extOk
        (connectCloudSQLMySQL cfg extOk initCSState).2.1).2.1).myDialerCreations = 1 ∧
    (connectCloudSQLMySQL cfg extOk (connectCloudSQLMySQL cfg extOk initCSState).2.1).1 = none ∧
    ((connectCloudSQLPostgres cfg extOk
        (connectCloudSQLPostgres cfg extOk initCSState).2.1).2.1).pgRegisterCount = 1 ∧
    ((connectCloudSQLPostgres cfg extOk
        (connectCloudSQLPostgres cfg extOk initCSState).2.1).2.1).pgDialerCreations = 2 := by
  refine ⟨?_, ?_, ?_, ?_, ?_, ?_⟩ <;>
    simp [connectCloudSQLMySQL, connectCloudSQLPostgres, extOk, initCSState, h] <;>
    split <;> simp_all

/-- Witness for C1 (amended) at a concrete cloudsql configuration. -/
theorem dialerSingleton_amended_witness :
    cfgMyCS.CloudSQLInstance ≠ [] ∧
    ((connectCloudSQLMySQL cfgMyCS extOk
        (connectCloudSQLMySQL cfgMyCS extOk initCSState).2.1).2.1).myDialerCreations = 1 ∧
    ((connectCloudSQLPostgres cfgMyCS extOk
        (connectCloudSQLPostgres cfgMyCS extOk initCSState).2.1).2.1).pgDialerCreations = 2 := by
  have hh := dialerSingleton_amended cfgMyCS initCSState (by decide)
  exact ⟨by decide, hh.2.2.1, hh.2.2.2.2.2⟩

/-- C2 counterexample: in the cloudsql-postgres path a ping failure closes
the newly opened pooled connection AND closes the tunnel dialer used by
this connection (`dialer.Close()` on the ping-error branch), refuting the
claim that the tunnel dialer is never torn down on ping failure. -/
theorem pingFailure_counterexample :
    (connectCloudSQLPostgres cfgPgCS extPingFail initCSState).1 = some (str "ping") ∧
    ((connectCloudSQLPostgres cfgPgCS extPingFail initCSState).2.2).sqlDbClosed = true ∧
    ((connectCloudSQLPostgres cfgPgCS extPingFail initCSState).2.2).dialerClosed = true := by
  decide

/-- C2 (amended): when the bounded ping fails, both managed connectors
close the newly opened pooled connection before returning the ping error.
In the cloudsql-mysql path the process-wide registered driver/dialer is
left untouched (its once-guarded cleanup is not invoked).  In the
cloudsql-postgres path there is no shared dialer: the dialer is created per
connection, and the failing call closes its own dialer along with the
pooled connection. -/
theorem pingFailure_amended (cfg : DatabaseConfiguration) (st : CSState) (e : ExtOutcomes)
    (h : cfg.CloudSQLInstance ≠ []) (h1 : e.newDialerOk = true) (h2 : e.parseOk = true)
    (h3 : e.openOk = true) (h4 : e.dbOk = true) (h5 : e.pingOk = false) :
    (connectCloudSQLPostgres cfg e st).1 = some (str "ping") ∧
    ((connectCloudSQLPostgres cfg e st).2.2).sqlDbClosed = true ∧
    ((connectCloudSQLPostgres cfg e st).2.2).dialerClosed = true ∧
    (connectCloudSQLMySQL cfg e st).1 = some (str "ping") ∧
    ((connectCloudSQLMySQL cfg e st).2.2).sqlDbClosed = true ∧
    ((connectCloudSQLMySQL cfg e st).2.2).dialerClosed = false ∧
    ((connectCloudSQLMySQL cfg e st).2.1).myCleanupDone = st.myCleanupDone := by
  refine ⟨?_, ?_, ?_, ?_, ?_, ?_, ?_⟩ <;>
    simp [connectCloudSQLMySQL, connectCloudSQLPostgres, h, h1, h2, h3, h4, h5] <;>
    split <;> simp_all

/-- Witness for C2 (amended) at a concrete ping-failure run. -/
theorem pingFailure_amended_witness :
    cfgPgCS.CloudSQLInstance ≠ [] ∧ extPingFail.pingOk = false ∧
    (connectCloudSQLPostgres cfgPgCS extPingFail initCSState).1 = some (str "ping") ∧
    ((connectCloudSQLMySQL cfgPgCS extPingFail initCSState).2.2).dialerClosed = false := by
  have hh := pingFailure_amended cfgPgCS initCSState extPingFail (by decide) rfl rfl rfl rfl rfl
  exact ⟨by decide, rfl, hh.1, hh.2.2.2.2.2.1⟩

lemma eqRed_eq : eqRed = '=' :: phChars := rfl

lemma pwAssign_ne_nil : pwAssign ≠ [] := by decide

lemma matchRule_pw (t : List Char) :
    matchRule passwordKws (pwAssign ++ t) = some (8, 20) := rfl

lemma scan_copies (kws : List (List Char)) :
    ∀ (d : List Char),
      (∀ d₁ d₂ t, d₁ ++ d₂ = d → d₂ ≠ [] → matchKeyword kws (d₂ ++ t) = none) →
      ∀ u fuel, ∃ w, replacePassFuel kws fuel (d ++ u) = d ++ w := by
  intro d
  induction d with
  | nil => exact fun _ u fuel => ⟨replacePassFuel kws fuel u, by simp⟩
  | cons c d' ihd =>
    intro hd u fuel
    cases fuel with
    | zero => exact ⟨u, rfl⟩
    | succ f =>
      have hmk : matchKeyword kws ((c :: d') ++ u) = none := hd [] (c :: d') u rfl (by simp)
      rw [List.cons_append] at hmk
      have hmr : matchRule kws (c :: (d' ++ u)) = none := by
        simp [matchRule, hmk]
      obtain ⟨w, hw⟩ := ihd (fun d₁ d₂ t hh hne => hd (c :: d₁) d₂ t (by simpa using hh) hne) u f
      refine ⟨w, ?_⟩
      simp only [List.cons_append]
      simp only [replacePassFuel, hmr]
      simp [hw]

lemma kw_fail_suffix (kws : List (List Char))
    (hph : ∀ j, j < 10 → ∀ t, matchKeyword kws (List.drop j phChars ++ t) = none) :
    ∀ d₁ d₂ t, d₁ ++ d₂ = phChars → d₂ ≠ [] → matchKeyword kws (d₂ ++ t) = none := by
  intro d₁ d₂ t heq hne
  have hd : d₂ = List.drop d₁.length phChars := by
    rw [← heq]
    simp
  have hlen : d₁.length < 10 := by
    have h10 : phChars.length = 10 := by decide
    have hsum : d₁.length + d₂.length = 10 := by
      rw [← h10, ← heq, List.length_append]
    have hpos : 0 < d₂.length := List.length_pos.mpr hne
    omega
  rw [hd]
  exact hph d₁.length hlen t

lemma hph_password : ∀ j, j < 10 → ∀ t,
    matchKeyword passwordKws (List.drop j phChars ++ t) = none := by
  intro j hj t
  interval_cases j <;> rfl

lemma hph_token : ∀ j, j < 10 → ∀ t,
    matchKeyword tokenKws (List.drop j phChars ++ t) = none := by
  intro j hj t
  interval_cases j <;> rfl

lemma hph_card : ∀ j, j < 10 → ∀ t,
    matchKeyword cardKws (List.drop j phChars ++ t) = none := by
  intro j hj t
  interval_cases j <;> rfl

lemma hph_ssn : ∀ j, j < 10 → ∀ t,
    matchKeyword ssnKws (List.drop j phChars ++ t) = none := by
  intro j hj t
  interval_cases j <;> rfl

lemma hph_pin : ∀ j, j < 10 → ∀ t,
    matchKeyword pinKws (List.drop j phChars ++ t) = none := by
  intro j hj t
  interval_cases j <;> rfl

lemma pass_keeps_ph (kws : List (List Char))
    (hph : ∀ j, j < 10 → ∀ t, matchKeyword kws (List.drop j phChars ++ t) = none) :
    ∀ fuel s, phChars <:+: s → phChars <:+: replacePassFuel kws fuel s := by
  intro fuel
  induction fuel with
  | zero => exact fun s h => h
  | succ f ih =>
    intro s hinf
    match s with
    | [] => exact hinf
    | c :: rest =>
      by_cases hpre : phChars <+: c :: rest
      · obtain ⟨u, hu⟩ := hpre
        obtain ⟨w, hw⟩ := scan_copies kws phChars (kw_fail_suffix kws hph) u (f + 1)
        rw [← hu, hw]
        exact ⟨[], w, by simp⟩
      · have h2 : phChars <:+: rest := by
          rcases List.infix_cons_iff.mp hinf with h1 | h2
          · exact absurd h1 hpre
          · exact h2
        cases hmr : matchRule kws (c :: rest) with
        | none =>
          simp only [replacePassFuel, hmr]
          exact List.infix_cons_iff.mpr (Or.inr (ih rest h2))
        | some kn =>
          obtain ⟨k, n⟩ := kn
          simp only [replacePassFuel, hmr]
          refine ⟨List.take k (c :: rest) ++ ['='], replacePassFuel kws f (List.drop n (c :: rest)), ?_⟩
          simp [eqRed_eq, List.append_assoc]

lemma pass1_hits : ∀ fuel s, s.length ≤ fuel → pwAssign <:+: s →
    phChars <:+: replacePassFuel passwordKws fuel s := by
  intro fuel
  induction fuel with
  | zero =>
    intro s hl hinf
    have hs : s = [] := List.length_eq_zero.mp (Nat.le_zero.mp hl)
    subst hs
    obtain ⟨a, b, hab⟩ := hinf
    simp only [List.append_eq_nil] at hab
    exact absurd hab.1.2 pwAssign_ne_nil
  | succ f ih =>
    intro s hl hinf
    match s with
    | [] =>
      obtain ⟨a, b, hab⟩ := hinf
      simp only [List.append_eq_nil] at hab
      exact absurd hab.1.2 pwAssign_ne_nil
    | c :: rest =>
      by_cases hpre : pwAssign <+: c :: rest
      · obtain ⟨t, ht⟩ := hpre
        have hm : matchRule passwordKws (c :: rest) = some (8, 20) := by
          rw [← ht]
          exact matchRule_pw t
        simp only [replacePassFuel, hm]
        refine ⟨List.take 8 (c :: rest) ++ ['='],
          replacePassFuel passwordKws f (List.drop 20 (c :: rest)), ?_⟩
        simp [eqRed_eq, List.append_assoc]
      · have h2 : pwAssign <:+: rest := by
          rcases List.infix_cons_iff.mp hinf with h1 | h2
          · exact absurd h1 hpre
          · exact h2
        have hlr : rest.length ≤ f := by
          simp only [List.length_cons] at hl
          omega
        cases hmr : matchRule passwordKws (c :: rest) with
        | none =>
          simp only [replacePassFuel, hmr]
          exact List.infix_cons_iff.mpr (Or.inr (ih rest hlr h2))
        | some kn =>
          obtain ⟨k, n⟩ := kn
          simp only [replacePassFuel, hmr]
          refine ⟨List.take k (c :: rest) ++ ['='],
            replacePassFuel passwordKws f (List.drop n (c :: rest)), ?_⟩
          simp [eqRed_eq, List.append_assoc]

lemma scan_copies_ph :
    ∀ (d : List Char),
      (∀ d₁ d₂ t, d₁ ++ d₂ = d → d₂ ≠ [] → List.isPrefixOf phPair (d₂ ++ t) = false) →
      ∀ u fuel, ∃ w, replacePHFuel fuel (d ++ u) = d ++ w := by
  intro d
  induction d with
  | nil => exact fun _ u fuel => ⟨replacePHFuel fuel u, by simp⟩
  | cons c d' ihd =>
    intro hd u fuel
    cases fuel with
    | zero => exact ⟨u, rfl⟩
    | succ f =>
      have hp : List.isPrefixOf phPair ((c :: d') ++ u) = false := hd [] (c :: d') u rfl (by simp)
      rw [List.cons_append] at hp
      obtain ⟨w, hw⟩ := ihd (fun d₁ d₂ t hh hne => hd (c :: d₁) d₂ t (by simpa using hh) hne) u f
      refine ⟨w, ?_⟩
      simp only [List.cons_append]
      simp only [replacePHFuel, hp]
      simp [hw]

lemma redTail_fail : ∀ d₁ d₂ t, d₁ ++ d₂ = str "REDACTED]" → d₂ ≠ [] →
    List.isPrefixOf phPair (d₂ ++ t) = false := by
  intro d₁ d₂ t heq hne
  have hd : d₂ = List.drop d₁.length (str "REDACTED]") := by
    rw [← heq]
    simp
  have hlen : d₁.length < 9 := by
    have h9 : (str "REDACTED]").length = 9 := by decide
    have hsum : d₁.length + d₂.length = 9 := by
      rw [← h9, ← heq, List.length_append]
    have hpos : 0 < d₂.length := List.length_pos.mpr hne
    omega
  rw [hd]
  revert t
  have hj := hlen
  interval_cases hh : d₁.length <;> exact fun t => rfl

lemma phChars_cons : phChars = '[' :: str "REDACTED]" := rfl

lemma replacePH_keeps_ph : ∀ fuel s, phChars <:+: s → phChars <:+: replacePHFuel fuel s := by
  intro fuel
  induction fuel with
  | zero => exact fun s h => h
  | succ f ih =>
    intro s hinf
    match s with
    | [] => exact hinf
    | c :: rest =>
      by_cases hp : List.isPrefixOf phPair (c :: rest) = true
      · simp only [replacePHFuel, hp, if_true]
        exact ⟨[], replacePHFuel f (List.drop 21 (c :: rest)), by simp⟩
      · have hp2 : List.isPrefixOf phPair (c :: rest) = false := by
          cases hb : List.isPrefixOf phPair (c :: rest)
          · rfl
          · exact absurd hb hp
        have hstep : replacePHFuel (f + 1) (c :: rest) = c :: replacePHFuel f rest := by
          simp [replacePHFuel, hp2]
        rw [hstep]
        by_cases hpre : phChars <+: c :: rest
        · obtain ⟨u, hu⟩ := hpre
          have hsplit : '[' :: (str "REDACTED]" ++ u) = c :: rest := by
            rw [← hu]
            rfl
          obtain ⟨hc, hrest⟩ := List.cons.inj hsplit
          obtain ⟨w, hw⟩ := scan_copies_ph (str "REDACTED]") redTail_fail u f
          rw [← hrest, hw, ← hc]
          exact ⟨[], w, by simp [phChars_cons]⟩
        · have h2 : phChars <:+: rest := by
            rcases List.infix_cons_iff.mp hinf with h1 | h2
            · exact absurd h1 hpre
            · exact h2
          exact List.infix_cons_iff.mpr (Or.inr (ih rest h2))

lemma collapse_keeps_ph : ∀ fuel s, phChars <:+: s → phChars <:+: collapseFuel fuel s := by
  intro fuel
  induction fuel with
  | zero => exact fun s h => h
  | succ f ih =>
    intro s hinf
    simp only [collapseFuel]
    by_cases hc : containsSub phPair s = true
    · simp only [hc, if_true]
      exact ih _ (replacePH_keeps_ph s.length s hinf)
    · have hc2 : containsSub phPair s = false := by
        cases hb : containsSub phPair s
        · rfl
        · exact absurd hb hc
      simp only [hc2]
      exact hinf

lemma matchKeyword_none_of_fail (kws : List (List Char)) (s : List Char)
    (h : ∀ kw ∈ kws, isCIPrefix kw s = false) : matchKeyword kws s = none := by
  induction kws with
  | nil => rfl
  | cons kw kws ih =>
    simp only [matchKeyword, h kw (by simp), if_false, Bool.false_eq_true]
    exact ih fun k hk => h k (by simp [hk])

lemma pass_id (kws : List (List Char)) (hsub : ∀ kw ∈ kws, kw ∈ allKws) :
    ∀ fuel s, hasSensitiveKeyword s = false → replacePassFuel kws fuel s = s := by
  intro fuel
  induction fuel with
  | zero => exact fun s _ => rfl
  | succ f ih =>
    intro s hs
    match s with
    | [] => rfl
    | c :: rest =>
      have hsplit : allKws.any (fun kw => isCIPrefix kw (c :: rest)) = false ∧
          hasSensitiveKeyword rest = false := by
        simpa [hasSensitiveKeyword] using hs
      have hmk : matchKeyword kws (c :: rest) = none := by
        apply matchKeyword_none_of_fail
        intro kw hkw
        have hall := List.any_eq_false.mp hsplit.1
        simpa using hall kw (hsub kw hkw)
      have hmr : matchRule kws (c :: rest) = none := by
        simp [matchRule, hmk]
      simp only [replacePassFuel, hmr]
      rw [ih rest hsplit.2]

lemma collapse_id (fuel : Nat) (s : List Char) (h : containsSub phPair s = false) :
    collapseFuel fuel s = s := by
  cases fuel <;> simp [collapseFuel, h]

/-- C8 (amended): every query containing password='secret123' redacts to a
string containing the fixed placeholder; the repository's canonical test
query redacts exactly to ...password=[REDACTED], which no longer contains
secret123; and every query containing no sensitive keyword (and no
adjacent-placeholder text, which the collapse loop would rewrite) is
returned unchanged. -/
theorem redactSQL_spec :
    (∀ s, pwAssign <:+: s → phChars <:+: redactSQL s) ∧
    (redactSQL canonicalQuery = str "SELECT * FROM users WHERE password=[REDACTED]" ∧
      ¬ str "secret123" <:+: redactSQL canonicalQuery) ∧
    (∀ s, hasSensitiveKeyword s = false → containsSub phPair s = false → redactSQL s = s) := by
  refine ⟨?_, ⟨by decide, by decide⟩, ?_⟩
  · intro s hinf
    unfold redactSQL runPass
    apply collapse_keeps_ph
    apply pass_keeps_ph pinKws hph_pin
    apply pass_keeps_ph ssnKws hph_ssn
    apply pass_keeps_ph cardKws hph_card
    apply pass_keeps_ph tokenKws hph_token
    exact pass1_hits s.length s le_rfl hinf
  · intro s h1 h2
    unfold redactSQL runPass
    dsimp only
    rw [pass_id passwordKws (by decide) s.length s h1]
    rw [pass_id tokenKws (by decide) s.length s h1]
    rw [pass_id cardKws (by decide) s.length s h1]
    rw [pass_id ssnKws (by decide) s.length s h1]
    rw [pass_id pinKws (by decide) s.length s h1]
    exact collapse_id s.length s h2

/-- Witness for C8 (amended): the canonical query gains the placeholder,
and the repository's no-sensitive-data test query is unchanged. -/
theorem redactSQL_spec_witness :
    (pwAssign <:+: canonicalQuery ∧ phChars <:+: redactSQL canonicalQuery) ∧
    (hasSensitiveKeyword (str "SELECT id, name FROM users WHERE id=1") = false ∧
     containsSub phPair (str "SELECT id, name FROM users WHERE id=1") = false ∧
     redactSQL (str "SELECT id, name FROM users WHERE id=1")
       = str "SELECT id, name FROM users WHERE id=1") := by
  refine ⟨⟨by decide, redactSQL_spec.1 canonicalQuery (by decide)⟩, by decide, by decide,
    redactSQL_spec.2.2 (str "SELECT id, name FROM users WHERE id=1") (by decide) (by decide)⟩

/-- C8 counterexample: a query containing password='secret123' whose
redaction still contains the literal secret123 (the second occurrence sits
outside any sensitive keyword=value assignment), refuting "never contains
the literal secret123". -/
theorem redactSQL_counterexample :
    pwAssign <:+: ctrQuery ∧
    phChars <:+: redactSQL ctrQuery ∧
    str "secret123" <:+: redactSQL ctrQuery := by
  refine ⟨by decide, by decide, by decide⟩
